import Mathlib

/-!
Verification development for the RadVerify pipeline.

Shallow embedding of:
- the comparison engine (`src/modules/verification_engine.py`),
- the radverify decision matrix (`src/radverify/comparison.py`),
- the report parsers (`src/radverify/report_parser.py`, `src/modules/nlp_parser.py`),
- the calibration detector and biometry measurement (`src/modules/ai_analyzer.py`).

Python floats are modelled as rationals; Python `round` (banker's rounding)
is modelled by `roundHalfEven`/`roundTo`.
-/

namespace RadVerify

/-- Python `round(q)` to an integer: round-half-to-even (banker's rounding). -/
def roundHalfEven (q : ℚ) : ℤ :=
  if q - ⌊q⌋ < 1/2 then ⌊q⌋
  else if 1/2 < q - ⌊q⌋ then ⌊q⌋ + 1
  else if ⌊q⌋ % 2 = 0 then ⌊q⌋ else ⌊q⌋ + 1

/-- Python `round(q, d)`: round to `d` decimal places, half to even. -/
def roundTo (d : ℕ) (q : ℚ) : ℚ :=
  (roundHalfEven (q * 10 ^ d) : ℚ) / 10 ^ d

theorem floor_le_roundHalfEven (q : ℚ) : ⌊q⌋ ≤ roundHalfEven q := by
  unfold roundHalfEven
  repeat' split
  all_goals omega

theorem roundHalfEven_le_floor_add_one (q : ℚ) : roundHalfEven q ≤ ⌊q⌋ + 1 := by
  unfold roundHalfEven
  repeat' split
  all_goals omega

theorem roundHalfEven_le_int {q : ℚ} {n : ℤ} (h : q ≤ n) : roundHalfEven q ≤ n := by
  have hf : ⌊q⌋ ≤ n := by
    have := Int.floor_le_floor h
    simpa using this
  rcases lt_or_eq_of_le hf with hlt | heq
  · have := roundHalfEven_le_floor_add_one q
    omega
  · -- the floor equals the bound, so `q` is the integer `n` itself
    have hq : q = (n : ℚ) := by
      have h1 : (n : ℚ) ≤ q := by
        rw [← heq]; exact Int.floor_le q
      exact le_antisymm h h1
    subst hq
    unfold roundHalfEven
    have hfl : ⌊(n : ℚ)⌋ = n := Int.floor_intCast n
    have hr : (n : ℚ) - (⌊(n : ℚ)⌋ : ℚ) = 0 := by rw [hfl]; ring
    simp only [hr]
    norm_num

theorem int_le_roundHalfEven {q : ℚ} {n : ℤ} (h : (n : ℚ) ≤ q) : n ≤ roundHalfEven q := by
  have hf : n ≤ ⌊q⌋ := Int.le_floor.mpr h
  exact le_trans hf (floor_le_roundHalfEven q)

theorem roundHalfEven_nonneg {q : ℚ} (h : 0 ≤ q) : 0 ≤ roundHalfEven q := by
  have : (0 : ℚ) ≤ q := h
  exact int_le_roundHalfEven (by exact_mod_cast this)

theorem one_le_roundHalfEven {q : ℚ} (h : (1 : ℚ) ≤ q) : 1 ≤ roundHalfEven q := by
  exact int_le_roundHalfEven (by exact_mod_cast h)

/-- Python truthiness of an optional float: `None` and `0.0` are falsy. -/
def truthy : Option ℚ → Bool
  | none => false
  | some v => v != 0

/-- Comparison outcome labels used across the repository
(`verification_engine.py` statuses plus `comparison.py` statuses). -/
inductive Status where
  | match_
  | match_absent
  | omission
  | overstatement
  | mismatch
  | contradiction
  | not_assessed
  | uncertain
  deriving DecidableEq, Repr

inductive Severity where
  | low
  | medium
  | high
  deriving DecidableEq, Repr

inductive RiskLevel where
  | low
  | medium
  | high
  deriving DecidableEq, Repr

/-- The four tracked biometric parameters. -/
inductive Param where
  | BPD
  | HC
  | AC
  | FL
  deriving DecidableEq, Repr

def paramList : List Param := [.BPD, .HC, .AC, .FL]

/-- `VerificationEngine.MEASUREMENT_TOLERANCE` (default configuration). -/
def measurement_tolerance : Param → ℚ
  | .BPD => 2
  | .HC => 5
  | .AC => 5
  | .FL => 2

/-- `VerificationEngine.CONFIDENCE_HIGH` (default configuration). -/
def CONFIDENCE_HIGH : ℚ := 8/10

/-- A doctor measurement entry as produced by the NLP parser:
`{'value': ..., 'mentioned': ...}`. -/
structure DoctorMeas where
  value : Option ℚ
  mentioned : Bool
  deriving DecidableEq, Repr

/-- One entry of the dictionary returned by
`VerificationEngine.compare_measurements`. -/
structure MeasComparison where
  status : Status
  ai_value : Option ℚ
  doctor_value : Option ℚ
  difference : Option ℚ
  tolerance : Option ℚ
  severity : Severity
  deriving DecidableEq, Repr

/-- Loop body of `VerificationEngine.compare_measurements` for one parameter.
Presence is tested by Python truthiness (`if ai_value and doctor_value`),
so a value of `0.0` behaves like an absent value. -/
def compareMeasParam (param : Param) (ai_value doctor_value : Option ℚ)
    (doctor_mentioned : Bool) : MeasComparison :=
  let tolerance := measurement_tolerance param
  if truthy ai_value && truthy doctor_value then
    let a := ai_value.getD 0
    let r := doctor_value.getD 0
    let difference := |a - r|
    { status := if difference ≤ tolerance then .match_ else .mismatch
      ai_value := ai_value
      doctor_value := doctor_value
      difference := some (roundTo 2 difference)
      tolerance := some tolerance
      severity := if difference ≤ tolerance then .low else .high }
  else if truthy ai_value && !doctor_mentioned then
    { status := .omission
      ai_value := ai_value
      doctor_value := none
      difference := none
      tolerance := none
      severity := .medium }
  else if !truthy ai_value && doctor_mentioned && truthy doctor_value then
    { status := .overstatement
      ai_value := none
      doctor_value := doctor_value
      difference := none
      tolerance := none
      severity := .medium }
  else
    { status := .not_assessed
      ai_value := none
      doctor_value := none
      difference := none
      tolerance := none
      severity := .low }

/-- `VerificationEngine.compare_measurements`: one comparison per tracked
parameter.  The AI side contributes `ai_measurements.get(param, {}).get('value')`,
the doctor side `{'value', 'mentioned'}`. -/
def compare_measurements (ai : Param → Option ℚ) (doctor : Param → DoctorMeas) :
    Param → MeasComparison :=
  fun p => compareMeasParam p (ai p) (doctor p).value (doctor p).mentioned

/-! String helpers modelling Python `in` (substring test) and `str.lower`. -/

def listPrefixEq : List Char → List Char → Bool
  | [], _ => true
  | _ :: _, [] => false
  | a :: as, b :: bs => a == b && listPrefixEq as bs

/-- Python `needle in haystack` on character lists. -/
def listContains (n : List Char) : List Char → Bool
  | [] => n.isEmpty
  | c :: cs => listPrefixEq n (c :: cs) || listContains n cs

/-- Python `needle in haystack` for strings. -/
def strIn (needle hay : String) : Bool :=
  listContains needle.toList hay.toList

/-- ASCII lowercasing of a character (model of Python `str.lower`). -/
def lowerChar (c : Char) : Char :=
  if 'A' ≤ c && c ≤ 'Z' then Char.ofNat (c.toNat + 32) else c

/-- ASCII model of Python `str.lower`. -/
def lowerStr (s : String) : String :=
  String.mk (s.toList.map lowerChar)

/-- Python `str.strip` on a character list (whitespace at both ends). -/
def stripChars (l : List Char) : List Char :=
  ((l.dropWhile Char.isWhitespace).reverse.dropWhile Char.isWhitespace).reverse

/-- Python `str.strip`. -/
def pyStrip (s : String) : String :=
  String.mk (stripChars s.toList)

/-- Splitting a character list at every delimiter character (used to model
`re.split(r'[.!?]+', text)`; empty pieces are discarded by the callers, so
splitting at each single delimiter is equivalent to splitting at runs). -/
def splitOnDelim (delim : Char → Bool) : List Char → List Char → List (List Char)
  | [], acc => [acc.reverse]
  | c :: cs, acc =>
    if delim c then acc.reverse :: splitOnDelim delim cs []
    else splitOnDelim delim cs (c :: acc)

/-- Python `s.replace('_', ' ')`. -/
def replaceUnderscores (s : String) : String :=
  String.mk (s.toList.map fun c => if c = '_' then ' ' else c)

/-! `VerificationEngine.compare_structures`. -/

/-- One AI structure entry: `{'present': ..., 'confidence': ...}`. -/
structure AIStruct where
  present : Bool
  confidence : ℚ
  deriving DecidableEq, Repr

/-- One doctor structure-mention entry (only `negated` is consulted). -/
structure DocStruct where
  negated : Bool
  deriving DecidableEq, Repr

/-- One entry of the dictionary returned by
`VerificationEngine.compare_structures`. -/
structure StructComparison where
  status : Status
  ai_present : Bool
  ai_confidence : ℚ
  doctor_mentioned : Bool
  doctor_negated : Bool
  severity : Severity
  deriving DecidableEq, Repr

/-- The doctor-mention lookup loop in `compare_structures`: the first keyword
of the doctor category related to the structure name by substring inclusion
(after replacing underscores with spaces) supplies `mentioned`/`negated`. -/
def lookupDoctorMention (structure_name : String) :
    List (String × DocStruct) → Bool × Bool
  | [] => (false, false)
  | (keyword, d) :: rest =>
    let sname := replaceUnderscores structure_name
    if strIn sname keyword || strIn keyword sname then (true, d.negated)
    else lookupDoctorMention structure_name rest

/-- The status/severity decision chain of `compare_structures`. -/
def compareStructItem (ai_present : Bool) (ai_confidence : ℚ)
    (doctor_mentioned doctor_negated : Bool) : Status × Severity :=
  if ai_present && decide (CONFIDENCE_HIGH ≤ ai_confidence) then
    if doctor_mentioned && !doctor_negated then (.match_, .low)
    else if doctor_mentioned && doctor_negated then (.mismatch, .high)
    else if !doctor_mentioned then (.omission, .medium)
    else (.uncertain, .low)
  else if !ai_present || decide (ai_confidence < CONFIDENCE_HIGH) then
    if doctor_mentioned && !doctor_negated then (.overstatement, .medium)
    else (.match_, .low)
  else (.uncertain, .low)

/-- `VerificationEngine.compare_structures`: nested dictionaries are modelled
as association lists preserving insertion order. -/
def compare_structures (ai : List (String × List (String × AIStruct)))
    (doctor : List (String × List (String × DocStruct))) :
    List (String × List (String × StructComparison)) :=
  ai.map fun cat =>
    (cat.1, cat.2.map fun item =>
      let ai_data := item.2
      let doctor_category := (doctor.lookup cat.1).getD []
      let dm := lookupDoctorMention item.1 doctor_category
      let ss := compareStructItem ai_data.present ai_data.confidence dm.1 dm.2
      (item.1,
        { status := ss.1
          ai_present := ai_data.present
          ai_confidence := ai_data.confidence
          doctor_mentioned := dm.1
          doctor_negated := dm.2
          severity := ss.2 }))

/-- The flat list of structure-comparison statuses, in iteration order. -/
def structStatusList (sc : List (String × List (String × StructComparison))) :
    List Status :=
  sc.flatMap fun cat => cat.2.map fun item => item.2.status

/-- The list of measurement-comparison statuses, in iteration order. -/
def measStatusList (mc : Param → MeasComparison) : List Status :=
  paramList.map fun p => (mc p).status

/-- `VerificationEngine.calculate_agreement_rate`.  Measurement items with
status `not_assessed` are excluded; every structure item is counted. -/
def calculate_agreement_rate (mc : Param → MeasComparison)
    (sc : List (String × List (String × StructComparison))) : ℚ :=
  let measCategorized :=
    (measStatusList mc).filter fun s => s != Status.not_assessed
  let total_items := measCategorized.length + (structStatusList sc).length
  let agreements :=
    (measCategorized.filter fun s => s == Status.match_).length +
    ((structStatusList sc).filter fun s => s == Status.match_).length
  if total_items = 0 then 0
  else (agreements : ℚ) / (total_items : ℚ)

/-- `VerificationEngine.assess_risk_level`. -/
def assess_risk_level (agreement_rate : ℚ) : RiskLevel :=
  if 85/100 ≤ agreement_rate then .low
  else if 70/100 ≤ agreement_rate then .medium
  else .high

/-- The discrepancy counters accumulated by `VerificationEngine.verify`
(`matches_` models the `'matches'` key, which is a reserved word here). -/
structure Discrepancies where
  matches_ : ℕ
  omissions : ℕ
  mismatches : ℕ
  overstatements : ℕ
  deriving DecidableEq, Repr

/-- AI findings as consumed by `verify` (`'biometry'` values and
`'structures_detected'`). -/
structure AIFindings where
  biometry : Param → Option ℚ
  structures_detected : List (String × List (String × AIStruct))

/-- Parsed doctor findings as consumed by `verify`. -/
structure DoctorFindings where
  measurements : Param → DoctorMeas
  structures : List (String × List (String × DocStruct))

structure VerificationResult where
  measurement_comparisons : Param → MeasComparison
  structure_comparisons : List (String × List (String × StructComparison))
  agreement_rate : ℚ
  risk_level : RiskLevel
  discrepancy_counts : Discrepancies

/-- `VerificationEngine.verify`.  In the measurement loop of the source, the
`status in discrepancies` test compares singular statuses against plural keys
and never fires, so only `match` is counted for measurements. -/
def verify (ai_findings : AIFindings) (doctor_findings : DoctorFindings) :
    VerificationResult :=
  let mc := compare_measurements ai_findings.biometry doctor_findings.measurements
  let sc := compare_structures ai_findings.structures_detected doctor_findings.structures
  let rate := calculate_agreement_rate mc sc
  let risk := assess_risk_level rate
  let d :=
    { matches_ :=
        ((measStatusList mc).filter fun s => s == Status.match_).length +
        ((structStatusList sc).filter fun s => s == Status.match_).length
      omissions := ((structStatusList sc).filter fun s => s == Status.omission).length
      mismatches := ((structStatusList sc).filter fun s => s == Status.mismatch).length
      overstatements :=
        ((structStatusList sc).filter fun s => s == Status.overstatement).length :
      Discrepancies }
  { measurement_comparisons := mc
    structure_comparisons := sc
    agreement_rate := roundTo 3 rate
    risk_level := risk
    discrepancy_counts := d }

/-! `src/radverify/models.py` and `src/radverify/comparison.py`. -/

/-- `AIFinding` dataclass. -/
structure AIFinding where
  feature_name : String
  detected : Bool
  confidence : ℚ
  rationale : String
  status : String
  summary : String
  deriving DecidableEq, Repr

/-- `ReportFindings` dataclass. -/
structure ReportFindings where
  feature_name : String
  mentioned : Bool
  negated : Bool
  context_snippet : Option String
  status : String
  confidence_terms : List String
  deriving DecidableEq, Repr

/-- `ComparisonOutcome` dataclass; the status strings of the source are
represented by the shared `Status` labels. -/
structure ComparisonOutcome where
  status : Status
  explanation : String
  deriving DecidableEq, Repr

/-- `compare_findings` from `src/radverify/comparison.py`. -/
def compare_findings (ai_finding : AIFinding) (report_findings : ReportFindings) :
    ComparisonOutcome × List String :=
  let ai_present := ai_finding.detected
  let report_mentions := report_findings.mentioned
  let report_negated := report_findings.negated
  let notes := [s!"AI detected: {ai_present}. Report mentioned: {report_mentions}. Negated: {report_negated}."]
  let outcome :=
    if ai_present && report_mentions && !report_negated then
      ComparisonOutcome.mk .match_ "Both AI and report describe the feature as present."
    else if ai_present && !report_mentions then
      ComparisonOutcome.mk .omission "AI detected the feature, but it was not mentioned in the report."
    else if ai_present && report_negated then
      ComparisonOutcome.mk .contradiction "AI detected the feature, yet the report explicitly negated its presence."
    else if !ai_present && report_mentions && !report_negated then
      ComparisonOutcome.mk .overstatement "Report mentions the feature even though AI did not detect it."
    else if !ai_present && report_negated then
      ComparisonOutcome.mk .match_absent "Both AI and report indicate the feature is absent."
    else
      ComparisonOutcome.mk .match_ "No inconsistencies detected for the monitored feature."
  (outcome, notes)

/-! `src/radverify/report_parser.py`. -/

def FEATURE_KEYWORDS : List String :=
  ["calcification", "calcified focus", "calcifications"]

def CONFIDENCE_KEYWORDS : List String :=
  ["normal", "adequate", "clear", "intact", "stable", "unremarkable"]

/-- Python `\w`: word characters (ASCII model). -/
def isWordChar (c : Char) : Bool :=
  c.isAlphanum || c == '_'

/-- An occurrence of word `w` at offset `i` of `h` with `\b` boundaries on
both sides. -/
def hasWordAt (w h : List Char) (i : ℕ) : Bool :=
  listPrefixEq w (h.drop i) &&
  (i == 0 || !isWordChar (h.getD (i - 1) ' ')) &&
  !isWordChar (h.getD (i + w.length) ' ')

/-- `re.search` for a whole-word, case-insensitive occurrence of `w`. -/
def regexSearchWord (w : String) (hay : String) : Bool :=
  let h := (lowerStr hay).toList
  (List.range (h.length + 1)).any fun i => hasWordAt w.toList h i

/-- `NEGATION_PATTERN.search`: `\b(no|without|absent|denies)\b`, ignoring case. -/
def negationPatternSearch (s : String) : Bool :=
  ["no", "without", "absent", "denies"].any fun w => regexSearchWord w s

/-- Python `text.find(keyword)`: index of first occurrence, `-1` if absent. -/
def pyFind (text keyword : List Char) : Int :=
  match text with
  | [] => if keyword.isEmpty then 0 else -1
  | _ :: cs =>
    if listPrefixEq keyword text then 0
    else
      let r := pyFind cs keyword
      if r < 0 then -1 else r + 1

/-- Python slice `s[a:b]` for `0 ≤ a ≤ b`. -/
def pySlice (s : List Char) (a b : ℕ) : List Char :=
  (s.take b).drop a

/-- `_extract_context_snippet(text, keyword, window)`. -/
def extractContextSnippet (text keyword : String) (window : ℕ) : String :=
  let t := text.toList
  let index := pyFind t keyword.toList
  let start := (max (index - (window / 2 : ℕ)) 0).toNat
  let stop := min (index + keyword.length + (window / 2 : ℕ)).toNat t.length
  pyStrip (String.mk (pySlice t start stop))

/-- `parse_report` from `src/radverify/report_parser.py`; the `ValueError`
raised on an empty report is modelled with `Except`. -/
def parse_report (report_text : String) (feature_name : String) :
    Except String (ReportFindings × List String) :=
  let normalized := pyStrip report_text
  if normalized = "" then .error "Report text is empty."
  else
    let lowered := lowerStr normalized
    let mentioned := FEATURE_KEYWORDS.any fun keyword => strIn keyword lowered
    let notes0 := ["Report text normalized and ready for parsing.",
                   s!"Feature mention detected: {mentioned}."]
    let matchedKeywords := FEATURE_KEYWORDS.filter fun keyword => strIn keyword lowered
    let snippet : Option String :=
      if mentioned then
        match matchedKeywords with
        | [] => none
        | k :: _ => some (extractContextSnippet lowered k 60)
      else none
    -- `context_section = snippet or normalized[:80]`: Python `or` treats an
    -- empty snippet string like `None`.
    let context_section :=
      match snippet with
      | some s => if s ≠ "" then s else String.mk (normalized.toList.take 80)
      | none => String.mk (normalized.toList.take 80)
    let negated :=
      if mentioned then negationPatternSearch context_section
      else false
    let status :=
      if mentioned then (if negated then "mentioned_negated" else "mentioned")
      else "not_mentioned"
    let notes :=
      if mentioned then notes0 ++ [s!"Negation context around mention: {negated}."]
      else notes0 ++ ["Feature not explicitly mentioned by keywords."]
    let confidence_terms := CONFIDENCE_KEYWORDS.filter fun term => strIn term lowered
    .ok ({ feature_name := feature_name
           mentioned := mentioned
           negated := negated
           context_snippet := snippet
           status := status
           confidence_terms := confidence_terms }, notes)

/-! `src/modules/nlp_parser.py` (basic, spaCy-free path). -/

namespace NLPParser

def NEGATION_KEYWORDS : List String :=
  ["no", "not", "absent", "negative", "without", "unremarkable",
   "no evidence of", "fails to demonstrate", "does not show"]

def UNCERTAINTY_KEYWORDS : List String :=
  ["possible", "probable", "likely", "suggests", "may indicate",
   "appears", "seems", "questionable", "uncertain"]

def STRUCTURE_KEYWORDS : List (String × List String) :=
  [("brain", ["brain", "skull", "cranium", "ventricle", "cerebellum", "cavum septum pellucidum"]),
   ("heart", ["heart", "cardiac", "four-chamber", "atrium", "ventricle"]),
   ("spine", ["spine", "spinal", "vertebra", "vertebrae"]),
   ("face", ["face", "facial", "profile", "nasal bone", "lip", "lips"]),
   ("organs", ["stomach", "kidney", "kidneys", "bladder", "liver"]),
   ("limbs", ["arm", "arms", "leg", "legs", "hand", "hands", "foot", "feet", "limb", "limbs"]),
   ("placenta", ["placenta", "placental"]),
   ("amniotic_fluid", ["amniotic fluid", "liquor", "fluid volume"]),
   ("umbilical_cord", ["umbilical cord", "cord"])]

/-- `NLPParser.extract_sentences`, basic splitting on `[.!?]+` with stripping
and removal of empty pieces. -/
def extract_sentences (text : String) : List String :=
  ((splitOnDelim (fun c => c == '.' || c == '!' || c == '?') text.toList []).map
    fun l => String.mk (stripChars l)).filter fun s => s ≠ ""

/-- `NLPParser.detect_negation`: keyword substring test on the lowercased
sentence. -/
def detect_negation (sentence : String) : Bool :=
  NEGATION_KEYWORDS.any fun keyword => strIn keyword (lowerStr sentence)

/-- `NLPParser.detect_uncertainty`: uncertainty keywords are tested before
negation, so a hedging keyword yields `"possible"` even when a negation
marker is present in the same sentence. -/
def detect_uncertainty (sentence : String) : String :=
  if UNCERTAINTY_KEYWORDS.any fun keyword => strIn keyword (lowerStr sentence) then
    "possible"
  else if detect_negation sentence then "unlikely"
  else "definite"

structure StructMention where
  mentioned : Bool
  negated : Bool
  uncertainty_level : String
  relevant_sentences : List String
  deriving DecidableEq, Repr

/-- The `for sent in relevant_sentences` loop choosing the first
non-`"definite"` uncertainty level. -/
def firstUncertainty : List String → String
  | [] => "definite"
  | s :: rest =>
    let u := detect_uncertainty s
    if u ≠ "definite" then u else firstUncertainty rest

/-- Per-keyword body of `NLPParser.extract_structure_mentions`: `none` when
the keyword contributes no entry to the category findings. -/
def structMentionFor (sentences : List String) (text_lower : String)
    (keyword : String) : Option StructMention :=
  if strIn keyword text_lower then
    let relevant := sentences.filter fun sent => strIn keyword (lowerStr sent)
    if relevant ≠ [] then
      some { mentioned := true
             negated := relevant.any detect_negation
             uncertainty_level := firstUncertainty relevant
             relevant_sentences := relevant }
    else none
  else none

/-- `NLPParser.extract_structure_mentions`. -/
def extract_structure_mentions (text : String) :
    List (String × List (String × StructMention)) :=
  let sentences := extract_sentences text
  let text_lower := lowerStr text
  (STRUCTURE_KEYWORDS.map fun cat =>
    (cat.1, cat.2.filterMap fun keyword =>
      (structMentionFor sentences text_lower keyword).map fun m => (keyword, m))
  ).filter fun cat => cat.2 ≠ []

end NLPParser

/-! `src/modules/ai_analyzer.py`: `CalibrationDetector.detect`.
A grayscale image is modelled as dimensions `h × w` with a pixel function;
the scanned strip is `image[:, int(w*0.85):]` and a pixel is a bright tick
mark when its intensity exceeds the binarization threshold 200. -/

namespace CalibrationDetector

/-- `int(w * 0.85)`: first column of the scanned right strip. -/
def stripStart (w : ℕ) : ℕ := w * 85 / 100

/-- The `y` coordinate of every bright strip pixel, with multiplicity, in
row-major order (`np.where` on the binarized strip). -/
def brightYs (h w : ℕ) (pix : ℕ → ℕ → ℕ) : List ℕ :=
  (List.range h).flatMap fun y =>
    (((List.range (w - stripStart w)).filter fun dx =>
        200 < pix y (stripStart w + dx)).map fun _ => y)

/-- `np.sort(np.unique(y_coords))`: the increasing list of rows containing a
bright strip pixel. -/
def uniqueYs (h w : ℕ) (pix : ℕ → ℕ → ℕ) : List ℕ :=
  (List.range h).filter fun y =>
    (List.range (w - stripStart w)).any fun dx => 200 < pix y (stripStart w + dx)

/-- `np.diff` on an increasing list. -/
def diffList (l : List ℕ) : List ℕ :=
  List.zipWith (fun a b => b - a) l l.tail

def gapsOf (h w : ℕ) (pix : ℕ → ℕ → ℕ) : List ℕ :=
  diffList (uniqueYs h w pix)

/-- `np.argmax(np.bincount(gaps))`: the least gap value of maximal
multiplicity (for a nonempty gap list). -/
def modalGap (l : List ℕ) : ℕ :=
  l.foldl
    (fun b v =>
      if l.count b < l.count v then v
      else if l.count v = l.count b ∧ v < b then v else b)
    (l.headD 0)

/-- `CalibrationDetector.detect`.  The source guards `len(counts) > 0`
trivially once `gaps` is nonempty, so that test is not represented; the
`pixel_gap` variable of the source is written out as `modalGap (gapsOf …)`. -/
def detect (h w : ℕ) (pix : ℕ → ℕ → ℕ) : ℚ :=
  if 10 < (brightYs h w pix).length then
    if gapsOf h w pix ≠ [] then
      if 10 < modalGap (gapsOf h w pix) then
        roundTo 4 (10 / (modalGap (gapsOf h w pix) : ℚ))
      else 1/4
    else 1/4
  else 1/4

end CalibrationDetector

/-! `src/modules/ai_analyzer.py`: `AIAnalyzer.measure_biometry`.
The OpenCV stages (Canny edges, `findContours`, `fitEllipse`, `minAreaRect`)
are opaque numeric primitives; a contour is modelled by the data those
primitives yield for it: its area, its point count, its fitted ellipse axes
and its minimum-area-rectangle dimensions.  The random fallback jitter
(`np.random.uniform(-1.5, 1.5)`) is modelled as an input stream consumed in
parameter order. -/

structure Contour where
  area : ℚ
  npts : ℕ
  e1 : ℚ
  e2 : ℚ
  r1 : ℚ
  r2 : ℚ
  deriving DecidableEq, Repr

namespace AIAnalyzer

def majAx (c : Contour) : ℚ := max c.e1 c.e2
def minAx (c : Contour) : ℚ := min c.e1 c.e2
def rectLen (c : Contour) : ℚ := max c.r1 c.r2
def rectWid (c : Contour) : ℚ := min c.r1 c.r2

/-- `np.pi` as the IEEE double constant. -/
def fpi : ℚ := 3141592653589793 / 1000000000000000

/-- Computable rational stand-in for `np.sqrt` (its numeric value is never
load-bearing for the verified properties). -/
def fsqrt (q : ℚ) : ℚ :=
  if q ≤ 0 then 0
  else (Nat.sqrt (q.num.toNat * q.den * 10 ^ 30) : ℚ) / ((q.den : ℚ) * 10 ^ 15)

/-- `sorted(contours, key=cv2.contourArea, reverse=True)` (stable). -/
def sortContours (contours : List Contour) : List Contour :=
  contours.mergeSort fun a b => decide (b.area ≤ a.area)

/-- Head-contour acceptance test: area at least 5000, at least five points,
minor/major axis ratio strictly inside (0.7, 0.95). -/
def headPred (c : Contour) : Bool :=
  decide (5000 ≤ c.area) && decide (5 ≤ c.npts) &&
  decide (7/10 < minAx c / majAx c) && decide (minAx c / majAx c < 95/100)

/-- Abdomen acceptance test (the found head contour is skipped separately):
area at least 3000, at least five points, ratio in (0.85, 1.0]. -/
def acPred (c : Contour) : Bool :=
  decide (3000 ≤ c.area) && decide (5 ≤ c.npts) &&
  decide (85/100 < minAx c / majAx c) && decide (minAx c / majAx c ≤ 1)

/-- Femur acceptance test at calibration `ptm`: area in [500, 5000], positive
rectangle width, aspect ratio above 3, physical length in (20, 50). -/
def flPred (ptm : ℚ) (c : Contour) : Bool :=
  decide (500 ≤ c.area) && decide (c.area ≤ 5000) &&
  decide (0 < rectWid c) && decide (3 < rectLen c / rectWid c) &&
  decide (20 < rectLen c * ptm) && decide (rectLen c * ptm < 50)

/-- Ramanujan elliptical-perimeter line for `hc_val`. -/
def hcVal (c : Contour) (ptm : ℚ) : ℚ :=
  fpi * (3 * (majAx c + minAx c) / 2 -
    fsqrt ((3 * majAx c + minAx c) / 2 * (majAx c + 3 * minAx c) / 2)) * ptm / 2

structure Meas where
  value : ℚ
  unit : String
  method : String
  confidence : ℚ
  deriving DecidableEq, Repr

/-- The geometric (pre-fallback) part of `measure_biometry`: the measurement
each selection loop produces, if its acceptance test is met by some contour. -/
def geoMeasurements (contours : List Contour) (ptm : ℚ) : Param → Option Meas :=
  let sorted := sortContours contours
  let head := sorted.find? headPred
  let ac := (sorted.filter fun c => decide (head ≠ some c)).find? acPred
  let fl := sorted.find? (flPred ptm)
  fun p =>
    match p with
    | .BPD => head.map fun c =>
        { value := roundTo 1 (minAx c * ptm), unit := "mm",
          method := "cv_ellipse", confidence := 88/100 }
    | .HC => head.map fun c =>
        { value := roundTo 1 (hcVal c ptm), unit := "mm",
          method := "cv_ellipse", confidence := 85/100 }
    | .AC => ac.map fun c =>
        { value := roundTo 1 (fpi * (majAx c + minAx c) / 2 * ptm), unit := "mm",
          method := "cv_ellipse", confidence := 82/100 }
    | .FL => fl.map fun c =>
        { value := roundTo 1 (rectLen c * ptm), unit := "mm",
          method := "cv_rect", confidence := 80/100 }

/-- Fixed fallback reference values. -/
def defaultVal : Param → ℚ
  | .BPD => 47
  | .HC => 175
  | .AC => 152
  | .FL => 63/2

/-- Index of the jitter draw consumed for parameter `p` when it falls back
(the fallback loop runs in `paramList` order). -/
def fallbackIndex (geo : Param → Option Meas) (p : Param) : ℕ :=
  (paramList.takeWhile fun q => q ≠ p).countP fun q => (geo q).isNone

/-- `AIAnalyzer.measure_biometry`, given the contour data recovered from the
image, the detected calibration ratio `ptm`, and the jitter stream `jit`. -/
def measure_biometry (contours : List Contour) (ptm : ℚ) (jit : ℕ → ℚ) :
    Param → Meas :=
  let geo := geoMeasurements contours ptm
  fun p =>
    match geo p with
    | some m => m
    | none =>
      { value := roundTo 1 (defaultVal p + jit (fallbackIndex geo p))
        unit := "mm"
        method := "cv_fallback"
        confidence := 65/100 }

end AIAnalyzer

/-! Theorems. -/

theorem compareMeasParam_both_truthy (p : Param) (x y : ℚ) (hx : x ≠ 0) (hy : y ≠ 0)
    (m : Bool) :
    compareMeasParam p (some x) (some y) m =
      { status := if |x - y| ≤ measurement_tolerance p then .match_ else .mismatch
        ai_value := some x
        doctor_value := some y
        difference := some (roundTo 2 |x - y|)
        tolerance := some (measurement_tolerance p)
        severity := if |x - y| ≤ measurement_tolerance p then .low else .high } := by
  simp [compareMeasParam, truthy, hx, hy]

theorem measurement_tolerance_nonneg (p : Param) : 0 ≤ measurement_tolerance p := by
  cases p <;> norm_num [measurement_tolerance]

/-- C1: when both the AI value and the report value are present (truthy), the
measurement comparison is `match` with severity `low` exactly when
`|ai − report|` is at most the per-parameter tolerance, and `mismatch` with
severity `high` otherwise; in particular equal values match, and a report
value exceeding the AI value by tolerance plus any positive ε mismatches. -/
theorem C1_measurement_tolerance_split (p : Param) (a r : ℚ)
    (ha : a ≠ 0) (hr : r ≠ 0) (m : Bool) :
    ((compareMeasParam p (some a) (some r) m).status = .match_ ↔
      |a - r| ≤ measurement_tolerance p) ∧
    ((compareMeasParam p (some a) (some r) m).status = .mismatch ↔
      measurement_tolerance p < |a - r|) ∧
    ((compareMeasParam p (some a) (some r) m).severity = .low ↔
      |a - r| ≤ measurement_tolerance p) ∧
    ((compareMeasParam p (some a) (some r) m).severity = .high ↔
      measurement_tolerance p < |a - r|) ∧
    (compareMeasParam p (some a) (some a) m).status = .match_ ∧
    (∀ eps : ℚ, 0 < eps → a + measurement_tolerance p + eps ≠ 0 →
      (compareMeasParam p (some a) (some (a + measurement_tolerance p + eps)) m).status =
        .mismatch) := by
  have htol := measurement_tolerance_nonneg p
  refine ⟨?_, ?_, ?_, ?_, ?_, ?_⟩
  · rw [compareMeasParam_both_truthy p a r ha hr m]
    dsimp only
    split_ifs with h <;> simp [h]
  · rw [compareMeasParam_both_truthy p a r ha hr m]
    dsimp only
    split_ifs with h
    · simp [not_lt.mpr h]
    · simp [lt_of_not_le h]
  · rw [compareMeasParam_both_truthy p a r ha hr m]
    dsimp only
    split_ifs with h <;> simp [h]
  · rw [compareMeasParam_both_truthy p a r ha hr m]
    dsimp only
    split_ifs with h
    · simp [not_lt.mpr h]
    · simp [lt_of_not_le h]
  · rw [compareMeasParam_both_truthy p a a ha ha m]
    simp [htol]
  · intro eps heps hne
    rw [compareMeasParam_both_truthy p a _ ha hne m]
    have habs : |a - (a + measurement_tolerance p + eps)| =
        measurement_tolerance p + eps := by
      rw [abs_sub_comm]
      have : a + measurement_tolerance p + eps - a = measurement_tolerance p + eps := by
        ring
      rw [this, abs_of_nonneg (by linarith)]
    have hgt : ¬ |a - (a + measurement_tolerance p + eps)| ≤ measurement_tolerance p := by
      rw [habs]; linarith
    simp [hgt]

theorem C1_measurement_tolerance_split_witness :
    (compareMeasParam .BPD (some 47) (some 47) true).status = .match_ :=
  (C1_measurement_tolerance_split .BPD 47 47 (by norm_num) (by norm_num) true).2.2.2.2.1

/-- C10: a numeric value equal to `0.0` on either side of a measurement
comparison behaves exactly like an absent value, because presence is tested
by Python truthiness; `compare(ai=0, report=0)` is `not_assessed` and
`compare(ai=0, report=v)` with `v` mentioned and nonzero is `overstatement`. -/
theorem C10_zero_truthiness (p : Param) (dv av : Option ℚ) (m : Bool)
    (v : ℚ) (hv : v ≠ 0) :
    compareMeasParam p (some 0) dv m = compareMeasParam p none dv m ∧
    compareMeasParam p av (some 0) m = compareMeasParam p av none m ∧
    (compareMeasParam p (some 0) (some 0) m).status = .not_assessed ∧
    (compareMeasParam p (some 0) (some v) true).status = .overstatement := by
  refine ⟨?_, ?_, ?_, ?_⟩
  · simp [compareMeasParam, truthy]
  · simp [compareMeasParam, truthy]
  · simp [compareMeasParam, truthy]
  · simp [compareMeasParam, truthy, hv]

theorem C10_zero_truthiness_witness :
    (compareMeasParam .BPD (some 0) (some 0) false).status = .not_assessed :=
  (C10_zero_truthiness .BPD none none false 1 (by norm_num)).2.2.1

/-- C2 (counterexample): with the AI confidently reporting a structure present
(confidence 0.9 ≥ 0.8) and the report negating it, the verification engine
labels the case `mismatch`, not `contradiction` — while `compare_findings`
labels the same situation `contradiction`, so the labeling is not uniform. -/
theorem C2_contradiction_label_counterexample :
    compareStructItem true (9/10) true true = (.mismatch, .high) ∧
    (compare_findings
      { feature_name := "calcification", detected := true, confidence := 9/10,
        rationale := "", status := "detected", summary := "" }
      { feature_name := "calcification", mentioned := true, negated := true,
        context_snippet := none, status := "mentioned_negated",
        confidence_terms := [] }).1.status = .contradiction ∧
    Status.mismatch ≠ Status.contradiction := by
  have h : CONFIDENCE_HIGH ≤ (9 : ℚ)/10 := by norm_num [CONFIDENCE_HIGH]
  refine ⟨by simp [compareStructItem, h], by simp [compare_findings], by decide⟩

/-- C2 (amended): the two code paths disagree on the label for "AI confidently
present, report negates": `VerificationEngine.compare_structures` produces
`mismatch` with severity `high`, while `compare_findings` produces
`contradiction`; the labeling is not applied uniformly across the pipeline. -/
theorem C2_contradiction_label_divergence (conf : ℚ) (hconf : CONFIDENCE_HIGH ≤ conf)
    (ai : AIFinding) (rep : ReportFindings)
    (hd : ai.detected = true) (hm : rep.mentioned = true) (hn : rep.negated = true) :
    compareStructItem true conf true true = (.mismatch, .high) ∧
    (compare_findings ai rep).1.status = .contradiction := by
  constructor
  · simp [compareStructItem, hconf]
  · simp [compare_findings, hd, hm, hn]

theorem C2_contradiction_label_divergence_witness :
    compareStructItem true (8/10) true true = (.mismatch, .high) :=
  (C2_contradiction_label_divergence (8/10) (le_refl _)
    ⟨"f", true, 1, "", "", ""⟩ ⟨"f", true, true, none, "", []⟩ rfl rfl rfl).1

/-- C4 (counterexample): for a structure neither detected by the AI nor
mentioned in the report, `compare_structures` yields the literal status
`match`, not a distinct `match_absent` label. -/
theorem C4_absent_absent_counterexample :
    compare_structures [("brain", [("skull", ⟨false, 0⟩)])] [] =
      [("brain", [("skull",
        { status := .match_, ai_present := false, ai_confidence := 0,
          doctor_mentioned := false, doctor_negated := false,
          severity := .low })])] ∧
    Status.match_ ≠ Status.match_absent := by
  refine ⟨by simp [compare_structures, compareStructItem, lookupDoctorMention], by decide⟩

/-- C4 (amended): AI absent and report absent yields `not_assessed` for a
measurement; for a structure, whenever the AI is not confidently present and
the report either does not mention the feature or negates it, the engine
yields the (reused) label `match` with severity `low` — agreement on absence
is not given a distinct `match_absent` label. -/
theorem C4_absent_absent (p : Param) (present : Bool) (conf : ℚ)
    (mentioned negated : Bool)
    (hai : present = false ∨ conf < CONFIDENCE_HIGH)
    (hdoc : mentioned = false ∨ negated = true) :
    (compareMeasParam p none none false).status = .not_assessed ∧
    compareStructItem present conf mentioned negated = (.match_, .low) := by
  constructor
  · simp [compareMeasParam, truthy]
  · have h1 : (present && decide (CONFIDENCE_HIGH ≤ conf)) = false := by
      rcases hai with h | h
      · simp [h]
      · simp [not_le.mpr h]
    have h2 : (!present || decide (conf < CONFIDENCE_HIGH)) = true := by
      rcases hai with h | h
      · simp [h]
      · simp [h]
    have h3 : (mentioned && !negated) = false := by
      rcases hdoc with h | h
      · simp [h]
      · simp [h]
    simp [compareStructItem, h1, h2, h3]

theorem C4_absent_absent_witness :
    (compareMeasParam .BPD none none false).status = .not_assessed ∧
    compareStructItem false 0 false false = (.match_, .low) :=
  C4_absent_absent .BPD false 0 false false (Or.inl rfl) (Or.inl rfl)

/-- C5: the verification step is a pure function of its two inputs — equal AI
findings and equal parsed report findings produce identical comparison
results, agreement rate, risk level and discrepancy counts. -/
theorem C5_verify_deterministic (a a' : AIFindings) (d d' : DoctorFindings)
    (ha : a = a') (hd : d = d') : verify a d = verify a' d' := by
  rw [ha, hd]

theorem C5_verify_deterministic_witness :
    verify ⟨fun _ => none, []⟩ ⟨fun _ => ⟨none, false⟩, []⟩ =
      verify ⟨fun _ => none, []⟩ ⟨fun _ => ⟨none, false⟩, []⟩ :=
  C5_verify_deterministic _ _ _ _ rfl rfl

/-! Status-range facts feeding the agreement-rate analysis. -/

theorem compareMeasParam_status_ne_match_absent (p : Param) (av dv : Option ℚ)
    (m : Bool) : (compareMeasParam p av dv m).status ≠ .match_absent := by
  unfold compareMeasParam
  split_ifs <;> simp
  split <;> simp

theorem compareStructItem_status_range (a : Bool) (c : ℚ) (m n : Bool) :
    (compareStructItem a c m n).1 ≠ .not_assessed ∧
    (compareStructItem a c m n).1 ≠ .match_absent := by
  unfold compareStructItem
  split_ifs <;> simp

theorem structStatusList_range (ais : List (String × List (String × AIStruct)))
    (docs : List (String × List (String × DocStruct))) :
    ∀ s ∈ structStatusList (compare_structures ais docs),
      s ≠ .not_assessed ∧ s ≠ .match_absent := by
  intro s hs
  simp only [structStatusList, List.mem_flatMap, List.mem_map] at hs
  obtain ⟨catC, hcatC, itemC, hitemC, hstatus⟩ := hs
  simp only [compare_structures, List.mem_map] at hcatC
  obtain ⟨cat, hcat, rfl⟩ := hcatC
  simp only [List.mem_map] at hitemC
  obtain ⟨item, hitem, rfl⟩ := hitemC
  rw [← hstatus]
  exact compareStructItem_status_range _ _ _ _

theorem measStatusList_range (ai : Param → Option ℚ) (doc : Param → DoctorMeas) :
    ∀ s ∈ measStatusList (compare_measurements ai doc), s ≠ .match_absent := by
  intro s hs
  simp only [measStatusList, List.mem_map] at hs
  obtain ⟨p, hp, rfl⟩ := hs
  exact compareMeasParam_status_ne_match_absent _ _ _ _

/-- All comparison statuses produced by one verification run, in iteration
order. -/
def allStatuses (mc : Param → MeasComparison)
    (sc : List (String × List (String × StructComparison))) : List Status :=
  measStatusList mc ++ structStatusList sc

/-- `status == match_ || status == match_absent`: agreement labels. -/
def isAgree (s : Status) : Bool :=
  s == .match_ || s == .match_absent

/-- `status != not_assessed`: categorized items. -/
def isCategorized (s : Status) : Bool :=
  s != .not_assessed

theorem filter_length_mono {α : Type} (l : List α) (p q : α → Bool)
    (h : ∀ a ∈ l, p a = true → q a = true) :
    (l.filter p).length ≤ (l.filter q).length := by
  induction l with
  | nil => simp
  | cons a t ih =>
    have ht : ∀ x ∈ t, p x = true → q x = true :=
      fun x hx hpx => h x (List.mem_cons_of_mem a hx) hpx
    simp only [List.filter_cons]
    by_cases hp : p a = true
    · rw [if_pos hp, if_pos (h a (List.mem_cons_self a t) hp)]
      simpa using ih ht
    · rw [if_neg hp]
      split
      · exact le_trans (ih ht) (by simp)
      · exact ih ht

theorem filter_length_eq_iff {α : Type} (l : List α) (p : α → Bool) :
    (l.filter p).length = l.length ↔ ∀ a ∈ l, p a = true := by
  induction l with
  | nil => simp
  | cons a t ih =>
    simp only [List.filter_cons, List.length_cons]
    by_cases hp : p a = true
    · rw [if_pos hp]
      simp only [List.length_cons, Nat.succ_inj, ih, hp]
      constructor
      · intro hall x hx
        rcases List.mem_cons.mp hx with h1 | h2
        · subst h1; exact hp
        · exact hall x h2
      · intro hall x hx
        exact hall x (List.mem_cons_of_mem a hx)
    · rw [if_neg hp]
      constructor
      · intro hlen
        have hle := List.length_filter_le p t
        omega
      · intro hall
        exact absurd (hall a (List.mem_cons_self a t)) hp

/-- C3 (amended): the agreement rate equals the number of `match`/`match_absent`
items divided by the number of categorized (non-`not_assessed`) items, always
lies in [0,1], and — provided at least one categorized item exists — equals 1
exactly when every categorized item is `match`/`match_absent` (within this
engine agreement on absence is itself labeled `match`, so `match_absent`
never occurs). -/
theorem C3_agreement_rate_formula (ai : Param → Option ℚ) (doc : Param → DoctorMeas)
    (ais : List (String × List (String × AIStruct)))
    (docs : List (String × List (String × DocStruct))) :
    calculate_agreement_rate (compare_measurements ai doc) (compare_structures ais docs) =
      ((((allStatuses (compare_measurements ai doc) (compare_structures ais docs)).filter
          isAgree).length : ℚ) /
       (((allStatuses (compare_measurements ai doc) (compare_structures ais docs)).filter
          isCategorized).length : ℚ)) ∧
    0 ≤ calculate_agreement_rate (compare_measurements ai doc) (compare_structures ais docs) ∧
    calculate_agreement_rate (compare_measurements ai doc) (compare_structures ais docs) ≤ 1 ∧
    (((allStatuses (compare_measurements ai doc) (compare_structures ais docs)).filter
        isCategorized).length ≠ 0 →
      (calculate_agreement_rate (compare_measurements ai doc) (compare_structures ais docs) = 1 ↔
        ∀ s ∈ (allStatuses (compare_measurements ai doc) (compare_structures ais docs)).filter
          isCategorized, s = .match_ ∨ s = .match_absent)) := by
  have hA := measStatusList_range ai doc
  have hB := structStatusList_range ais docs
  set A := measStatusList (compare_measurements ai doc) with hAdef
  set B := structStatusList (compare_structures ais docs) with hBdef
  -- structure statuses are all categorized
  have hBcat : B.filter isCategorized = B := by
    rw [List.filter_eq_self]
    intro s hs
    simp [isCategorized, bne_iff_ne, (hB s hs).1]
  -- `match_absent` never occurs, so the agreement filter is the `match` filter
  have hAagree : A.filter isAgree = A.filter (fun s => s == Status.match_) := by
    apply List.filter_congr
    intro s hs
    simp [isAgree, beq_eq_false_iff_ne.mpr (hA s hs)]
  have hBagree : B.filter isAgree = B.filter (fun s => s == Status.match_) := by
    apply List.filter_congr
    intro s hs
    simp [isAgree, beq_eq_false_iff_ne.mpr ((hB s hs).2)]
  have hBm : B.filter (fun s => s == Status.match_) =
      (B.filter isCategorized).filter (fun s => s == Status.match_) := by
    rw [hBcat]
  have hAcatm : (A.filter isCategorized).filter (fun s => s == Status.match_) =
      A.filter (fun s => s == Status.match_) := by
    rw [List.filter_filter]
    apply List.filter_congr
    intro s _
    cases s <;> rfl
  -- totals
  have hD : ((A ++ B).filter isCategorized).length =
      (A.filter isCategorized).length + B.length := by
    rw [List.filter_append, List.length_append, hBcat]
  have hN : ((A ++ B).filter isAgree).length =
      ((A.filter isCategorized).filter (fun s => s == Status.match_)).length +
      (B.filter (fun s => s == Status.match_)).length := by
    rw [List.filter_append, List.length_append, hAagree, hBagree, hAcatm]
  have hrate : calculate_agreement_rate (compare_measurements ai doc)
      (compare_structures ais docs) =
      if ((A ++ B).filter isCategorized).length = 0 then 0
      else ((((A ++ B).filter isAgree).length : ℚ) /
            (((A ++ B).filter isCategorized).length : ℚ)) := by
    simp only [calculate_agreement_rate, ← hAdef, ← hBdef, hD, hN]
    rfl
  have hNleD : ((A ++ B).filter isAgree).length ≤
      ((A ++ B).filter isCategorized).length := by
    apply filter_length_mono
    intro s _ hs
    revert hs
    cases s <;> simp [isAgree, isCategorized]
  have hall : allStatuses (compare_measurements ai doc) (compare_structures ais docs) =
      A ++ B := rfl
  rw [hall, hrate]
  by_cases h0 : ((A ++ B).filter isCategorized).length = 0
  · have hN0 : ((A ++ B).filter isAgree).length = 0 := by omega
    rw [if_pos h0]
    refine ⟨by rw [hN0, h0]; norm_num, le_refl 0, by norm_num, fun hc => absurd h0 hc⟩
  · rw [if_neg h0]
    have hDpos : (0 : ℚ) < (((A ++ B).filter isCategorized).length : ℚ) := by
      exact_mod_cast Nat.pos_of_ne_zero h0
    refine ⟨rfl, by positivity, ?_, ?_⟩
    · rw [div_le_one hDpos]
      exact_mod_cast hNleD
    · intro _
      rw [div_eq_one_iff_eq (ne_of_gt hDpos)]
      have hcast : ((((A ++ B).filter isAgree).length : ℚ) =
          (((A ++ B).filter isCategorized).length : ℚ)) ↔
          (((A ++ B).filter isAgree).length =
           ((A ++ B).filter isCategorized).length) := by
        exact_mod_cast Iff.rfl
      rw [hcast]
      -- the agreement filter factors through the categorized filter
      have hfac : (A ++ B).filter isAgree =
          ((A ++ B).filter isCategorized).filter isAgree := by
        rw [List.filter_filter]
        apply List.filter_congr
        intro s _
        cases s <;> rfl
      rw [hfac]
      rw [filter_length_eq_iff]
      constructor
      · intro hx s hs
        have := hx s hs
        revert this
        cases s <;> simp [isAgree]
      · intro hx s hs
        have := hx s hs
        revert this
        cases s <;> simp [isAgree]

theorem C3_agreement_rate_formula_witness :
    calculate_agreement_rate (compare_measurements (fun _ => none) (fun _ => ⟨none, false⟩))
        (compare_structures [("brain", [("skull", ⟨false, 0⟩)])] []) = 1 ↔
      ∀ s ∈ (allStatuses (compare_measurements (fun _ => none) (fun _ => ⟨none, false⟩))
          (compare_structures [("brain", [("skull", ⟨false, 0⟩)])] [])).filter isCategorized,
        s = .match_ ∨ s = .match_absent :=
  (C3_agreement_rate_formula (fun _ => none) (fun _ => ⟨none, false⟩)
    [("brain", [("skull", ⟨false, 0⟩)])] []).2.2.2 (by decide)

/-- C3 (counterexample): with no AI findings and no report findings every
measurement is `not_assessed` and there are no structure items, so there are
zero categorized items; the engine then returns an agreement rate of 0, even
though 'every categorized item is match/match_absent' holds vacuously — the
claimed 'rate = 1.0 iff all categorized items agree' fails in this case. -/
theorem C3_agreement_rate_empty_counterexample :
    calculate_agreement_rate (compare_measurements (fun _ => none) (fun _ => ⟨none, false⟩))
      (compare_structures [] []) = 0 ∧
    (∀ s ∈ (allStatuses (compare_measurements (fun _ => none) (fun _ => ⟨none, false⟩))
        (compare_structures [] [])).filter isCategorized,
      s = .match_ ∨ s = .match_absent) ∧
    (0 : ℚ) ≠ 1 := by
  refine ⟨rfl, ?_, by norm_num⟩
  intro s hs
  have hnil : (allStatuses (compare_measurements (fun _ => none) (fun _ => ⟨none, false⟩))
      (compare_structures [] [])).filter isCategorized = [] := rfl
  rw [hnil] at hs
  exact absurd hs (List.not_mem_nil s)

/-- C7 (amended): when a tracked keyword occurs in a sentence that contains
both a negation marker and a hedging keyword, the parser does flag the
mention as negated (the negation flag is computed independently); however the
uncertainty classification of such a sentence is `"possible"`, not
`"unlikely"` — in `detect_uncertainty` hedging keywords take precedence over
negation, so negation does not suppress the `"possible"` classification. -/
theorem C7_negation_flag (text keyword s : String)
    (hkw : strIn keyword (lowerStr text) = true)
    (hs : s ∈ NLPParser.extract_sentences text)
    (hks : strIn keyword (lowerStr s) = true)
    (hneg : NLPParser.detect_negation s = true)
    (hunc : (NLPParser.UNCERTAINTY_KEYWORDS.any fun k => strIn k (lowerStr s)) = true) :
    NLPParser.structMentionFor (NLPParser.extract_sentences text) (lowerStr text) keyword =
      some { mentioned := true
             negated := true
             uncertainty_level := NLPParser.firstUncertainty
               ((NLPParser.extract_sentences text).filter
                 fun sent => strIn keyword (lowerStr sent))
             relevant_sentences := (NLPParser.extract_sentences text).filter
               fun sent => strIn keyword (lowerStr sent) } ∧
    NLPParser.detect_uncertainty s = "possible" := by
  have hrel : s ∈ (NLPParser.extract_sentences text).filter
      (fun sent => strIn keyword (lowerStr sent)) := List.mem_filter.mpr ⟨hs, hks⟩
  have hne : ((NLPParser.extract_sentences text).filter
      (fun sent => strIn keyword (lowerStr sent))) ≠ [] := by
    intro h
    rw [h] at hrel
    exact absurd hrel (List.not_mem_nil s)
  have hanyneg : ((NLPParser.extract_sentences text).filter
      (fun sent => strIn keyword (lowerStr sent))).any NLPParser.detect_negation = true :=
    List.any_eq_true.mpr ⟨s, hrel, hneg⟩
  constructor
  · simp [NLPParser.structMentionFor, hkw, hne, hanyneg]
  · simp [NLPParser.detect_uncertainty, hunc]

theorem C7_negation_flag_witness :
    NLPParser.detect_uncertainty "No stomach is likely seen" = "possible" :=
  (C7_negation_flag "No stomach is likely seen." "stomach" "No stomach is likely seen"
    (by decide) (by decide) (by decide) (by decide) (by decide)).2

/-- C7 (counterexample): the text `"No stomach is likely seen."` mentions the
tracked keyword `"stomach"` in a sentence containing both the negation marker
`"no"` and the hedging keyword `"likely"`; the resulting mention is flagged
negated *and* classified with uncertainty level `"possible"` — negation does
not take precedence over the uncertain/'possible' classification. -/
theorem C7_negation_precedence_counterexample :
    NLPParser.structMentionFor (NLPParser.extract_sentences "No stomach is likely seen.")
        (lowerStr "No stomach is likely seen.") "stomach" =
      some { mentioned := true
             negated := true
             uncertainty_level := "possible"
             relevant_sentences := ["No stomach is likely seen"] } ∧
    NLPParser.detect_negation "No stomach is likely seen" = true ∧
    "possible" ≠ "unlikely" := by
  refine ⟨by decide, by decide, by decide⟩

/-! Calibration-detector analysis. -/

theorem roundTo_nonneg (d : ℕ) (q : ℚ) (h : 0 ≤ q) : 0 ≤ roundTo d q := by
  unfold roundTo
  apply div_nonneg
  · exact_mod_cast roundHalfEven_nonneg (by positivity)
  · positivity

theorem roundTo_pos (d : ℕ) (q : ℚ) (h : 1 ≤ q * 10 ^ d) : 0 < roundTo d q := by
  unfold roundTo
  apply div_pos
  · exact_mod_cast lt_of_lt_of_le zero_lt_one (by exact_mod_cast one_le_roundHalfEven h)
  · positivity

theorem flatMap_nil_of_forall {α β : Type} (l : List α) (f : α → List β)
    (h : ∀ a ∈ l, f a = []) : l.flatMap f = [] := by
  induction l with
  | nil => rfl
  | cons a t ih =>
    rw [List.flatMap_cons, h a (List.mem_cons_self a t), List.nil_append]
    exact ih fun x hx => h x (List.mem_cons_of_mem a hx)

theorem CalibrationDetector.stripStart_le (w : ℕ) :
    CalibrationDetector.stripStart w ≤ w := by
  unfold CalibrationDetector.stripStart
  calc w * 85 / 100 ≤ w * 100 / 100 :=
        Nat.div_le_div_right (Nat.mul_le_mul_left w (by norm_num))
    _ = w := Nat.mul_div_cancel w (by norm_num)

theorem CalibrationDetector.diffList_cons_cons (a b : ℕ) (t : List ℕ) :
    CalibrationDetector.diffList (a :: b :: t) =
      (b - a) :: CalibrationDetector.diffList (b :: t) := rfl

theorem CalibrationDetector.diffList_range' (n s : ℕ) :
    CalibrationDetector.diffList (List.range' s n) = List.replicate (n - 1) 1 := by
  induction n generalizing s with
  | zero => rfl
  | succ m ih =>
    cases m with
    | zero => rfl
    | succ k =>
      rw [List.range'_succ, List.range'_succ]
      rw [CalibrationDetector.diffList_cons_cons]
      rw [← List.range'_succ]
      rw [ih (s + 1)]
      have hs : s + 1 - s = 1 := by omega
      rw [hs]
      simp [List.replicate_succ]

theorem CalibrationDetector.diffList_range (n : ℕ) :
    CalibrationDetector.diffList (List.range n) = List.replicate (n - 1) 1 := by
  rw [List.range_eq_range']
  exact CalibrationDetector.diffList_range' n 0

theorem CalibrationDetector.modalGap_replicate_one (n : ℕ) (hn : 1 ≤ n) :
    CalibrationDetector.modalGap (List.replicate n 1) = 1 := by
  obtain ⟨m, rfl⟩ : ∃ m, n = m + 1 := ⟨n - 1, by omega⟩
  unfold CalibrationDetector.modalGap
  have hfold : ∀ (k : ℕ) (L : List ℕ),
      List.foldl
        (fun b v =>
          if L.count b < L.count v then v
          else if L.count v = L.count b ∧ v < b then v else b)
        1 (List.replicate k 1) = 1 := by
    intro k L
    induction k with
    | zero => rfl
    | succ j ih =>
      rw [List.replicate_succ, List.foldl_cons]
      have hstep :
          (if L.count 1 < L.count 1 then 1
           else if L.count 1 = L.count 1 ∧ 1 < 1 then 1 else 1) = 1 := by
        split_ifs <;> rfl
      simpa using ih
  rw [List.replicate_succ]
  simp only [List.headD_cons, List.foldl_cons]
  rw [if_neg (lt_irrefl _), if_neg (by simp : ¬(True ∧ 1 < 1))]
  exact hfold m (1 :: List.replicate m 1)

theorem CalibrationDetector.detect_uniform (h w : ℕ) (pix : ℕ → ℕ → ℕ) (c : ℕ)
    (hc : ∀ y x, y < h → x < w → pix y x = c) :
    CalibrationDetector.detect h w pix = 1/4 := by
  have hx0 := CalibrationDetector.stripStart_le w
  by_cases hbright : 200 < c
  · by_cases hw0 : w - CalibrationDetector.stripStart w = 0
    · -- empty strip: no bright pixel at all
      have hempty : CalibrationDetector.brightYs h w pix = [] := by
        unfold CalibrationDetector.brightYs
        apply flatMap_nil_of_forall
        intro y _
        rw [hw0]
        rfl
      unfold CalibrationDetector.detect
      rw [hempty]
      norm_num
    · -- every strip pixel is bright: the rows are consecutive, all gaps are 1
      have hwpos : 0 < w - CalibrationDetector.stripStart w := Nat.pos_of_ne_zero hw0
      have huniq : CalibrationDetector.uniqueYs h w pix = List.range h := by
        unfold CalibrationDetector.uniqueYs
        apply List.filter_eq_self.mpr
        intro y hy
        apply List.any_eq_true.mpr
        refine ⟨0, List.mem_range.mpr hwpos, ?_⟩
        have hpc : pix y (CalibrationDetector.stripStart w) = c :=
          hc y _ (by exact List.mem_range.mp hy) (by omega)
        simp [hpc, hbright]
      have hgaps : CalibrationDetector.gapsOf h w pix = List.replicate (h - 1) 1 := by
        unfold CalibrationDetector.gapsOf
        rw [huniq]
        exact CalibrationDetector.diffList_range h
      unfold CalibrationDetector.detect
      split_ifs with h1 h2 h3
      · -- the modal gap of an all-ones gap list is 1, never above 10
        rw [hgaps] at h2 h3
        have hh : 1 ≤ h - 1 := by
          by_contra hcon
          have : h - 1 = 0 := by omega
          rw [this] at h2
          exact h2 rfl
        rw [CalibrationDetector.modalGap_replicate_one (h - 1) hh] at h3
        omega
      · rfl
      · rfl
      · rfl
  · -- no pixel exceeds the brightness threshold
    have hempty : CalibrationDetector.brightYs h w pix = [] := by
      unfold CalibrationDetector.brightYs
      apply flatMap_nil_of_forall
      intro y hy
      have hfil : (List.range (w - CalibrationDetector.stripStart w)).filter
          (fun dx => decide (200 < pix y (CalibrationDetector.stripStart w + dx))) = [] := by
        apply List.filter_eq_nil_iff.mpr
        intro dx hdx
        have hxlt : CalibrationDetector.stripStart w + dx < w := by
          have := List.mem_range.mp hdx
          omega
        have hpc := hc y _ (List.mem_range.mp hy) hxlt
        simp [hpc, hbright]
      rw [hfil]
      rfl
    unfold CalibrationDetector.detect
    rw [hempty]
    norm_num

/-- C6 (amended): the calibration detector never raises (it is a total
function), its result is always nonnegative, a uniformly colored image yields
the documented default ratio 0.25, and in general the result is either the
default 0.25 or, when a modal tick gap above the plausibility threshold 10 is
found, `10 / gap` *rounded to four decimal places* — a value that is strictly
positive whenever the modal gap is at most 100000 (the rounding collapses
only absurdly large gaps to zero). -/
theorem C6_calibration_default (h w : ℕ) (pix : ℕ → ℕ → ℕ) :
    0 ≤ CalibrationDetector.detect h w pix ∧
    ((∃ c, ∀ y x, y < h → x < w → pix y x = c) →
      CalibrationDetector.detect h w pix = 1/4) ∧
    (CalibrationDetector.detect h w pix = 1/4 ∨
      (10 < CalibrationDetector.modalGap (CalibrationDetector.gapsOf h w pix) ∧
       CalibrationDetector.detect h w pix =
         roundTo 4 (10 / (CalibrationDetector.modalGap (CalibrationDetector.gapsOf h w pix) : ℚ)) ∧
       (CalibrationDetector.modalGap (CalibrationDetector.gapsOf h w pix) ≤ 100000 →
         0 < CalibrationDetector.detect h w pix))) := by
  have hchar : CalibrationDetector.detect h w pix = 1/4 ∨
      (10 < CalibrationDetector.modalGap (CalibrationDetector.gapsOf h w pix) ∧
       CalibrationDetector.detect h w pix =
         roundTo 4 (10 / (CalibrationDetector.modalGap (CalibrationDetector.gapsOf h w pix) : ℚ)) ∧
       (CalibrationDetector.modalGap (CalibrationDetector.gapsOf h w pix) ≤ 100000 →
         0 < CalibrationDetector.detect h w pix)) := by
    unfold CalibrationDetector.detect
    split_ifs with h1 h2 h3
    · right
      refine ⟨h3, rfl, ?_⟩
      intro hle
      apply roundTo_pos
      have hgpos : (0 : ℚ) <
          (CalibrationDetector.modalGap (CalibrationDetector.gapsOf h w pix) : ℚ) := by
        exact_mod_cast lt_of_le_of_lt (by norm_num) h3
      have hform : (10 : ℚ) /
          (CalibrationDetector.modalGap (CalibrationDetector.gapsOf h w pix) : ℚ) * 10 ^ 4 =
          100000 / (CalibrationDetector.modalGap (CalibrationDetector.gapsOf h w pix) : ℚ) := by
        ring
      rw [hform, le_div_iff₀ hgpos, one_mul]
      exact_mod_cast hle
    · left; rfl
    · left; rfl
    · left; rfl
  refine ⟨?_, ?_, hchar⟩
  · rcases hchar with he | ⟨hm, he, _⟩
    · rw [he]; norm_num
    · rw [he]
      apply roundTo_nonneg
      positivity
  · rintro ⟨c, hc⟩
    exact CalibrationDetector.detect_uniform h w pix c hc

theorem C6_calibration_default_witness :
    CalibrationDetector.detect 1 1 (fun _ _ => 0) = 1/4 :=
  (C6_calibration_default 1 1 (fun _ _ => 0)).2.1 ⟨0, fun _ _ _ _ => rfl⟩

/-- C6 (counterexample): an image whose right-edge strip holds bright tick
rows 11 pixels apart (24 bright pixels, modal gap 11) makes the detector
return `round(10/11, 4) = 0.9091`, which differs from the exact quotient
`10/11` claimed by the statement 'otherwise it returns fixed_spacing
(10 units) divided by the modal gap'. -/
theorem C6_calibration_rounding_counterexample :
    CalibrationDetector.detect 34 40 (fun y _ => if y % 11 = 0 then 255 else 0) =
      9091/10000 ∧
    (9091/10000 : ℚ) ≠ 10/11 := by
  constructor
  · have h1 : (CalibrationDetector.brightYs 34 40
        (fun y _ => if y % 11 = 0 then 255 else 0)).length = 24 := by decide
    have h2 : CalibrationDetector.gapsOf 34 40
        (fun y _ => if y % 11 = 0 then 255 else 0) = [11, 11, 11] := by decide
    have h3 : CalibrationDetector.modalGap [11, 11, 11] = 11 := by decide
    unfold CalibrationDetector.detect
    rw [h1, h2, h3]
    rw [if_pos (by norm_num : (10 : ℕ) < 24),
        if_pos (by decide : ([11, 11, 11] : List ℕ) ≠ []),
        if_pos (by norm_num : (10 : ℕ) < 11)]
    have hfl : ⌊(10 / ((11 : ℕ) : ℚ)) * 10 ^ 4⌋ = 9090 := by
      rw [Int.floor_eq_iff]
      push_cast
      norm_num
    have hc1 : ¬((10 / ((11 : ℕ) : ℚ)) * 10 ^ 4 - ((9090 : ℤ) : ℚ) < 1/2) := by
      push_cast
      norm_num
    have hc2 : (1 : ℚ)/2 < (10 / ((11 : ℕ) : ℚ)) * 10 ^ 4 - ((9090 : ℤ) : ℚ) := by
      push_cast
      norm_num
    unfold roundTo roundHalfEven
    rw [hfl]
    rw [if_neg hc1, if_pos hc2]
    norm_num
  · norm_num

/-- C8: parsing `"No calcifications are seen. Findings are otherwise normal."`
for the calcification feature yields `mentioned = True`, `negated = True`,
and confidence terms containing `"normal"`. -/
theorem C8_parse_report_example :
    ((parse_report "No calcifications are seen. Findings are otherwise normal."
        "calcification").toOption.map
      fun p => (p.1.mentioned, p.1.negated, p.1.confidence_terms.contains "normal")) =
      some (true, true, true) := by decide

/-! Biometry fallback analysis. -/

theorem roundTo_one_jitter_bound (d j : ℚ) (n : ℤ) (hd : (n : ℚ) = d * 10)
    (hj : |j| ≤ 3/2) : |roundTo 1 (d + j) - d| ≤ 3/2 := by
  have hj1 : j ≤ 3/2 := (abs_le.mp hj).2
  have hj2 : -(3/2) ≤ j := (abs_le.mp hj).1
  have hq1 : (d + j) * 10 ≤ ((n + 15 : ℤ) : ℚ) := by
    push_cast
    rw [hd]
    ring_nf
    linarith
  have hq2 : (((n - 15 : ℤ) : ℚ)) ≤ (d + j) * 10 := by
    push_cast
    rw [hd]
    ring_nf
    linarith
  have hr1 := roundHalfEven_le_int hq1
  have hr2 := int_le_roundHalfEven hq2
  have hc1 : ((roundHalfEven ((d + j) * 10) : ℤ) : ℚ) ≤ (n : ℚ) + 15 := by
    exact_mod_cast hr1
  have hc2 : (n : ℚ) - 15 ≤ ((roundHalfEven ((d + j) * 10) : ℤ) : ℚ) := by
    exact_mod_cast hr2
  unfold roundTo
  rw [pow_one]
  rw [abs_le]
  constructor
  · rw [hd] at hc2
    linarith
  · rw [hd] at hc1
    linarith

theorem geoMeasurements_spec (contours : List Contour) (ptm : ℚ) (p : Param)
    (m : AIAnalyzer.Meas) (hm : AIAnalyzer.geoMeasurements contours ptm p = some m) :
    m.unit = "mm" ∧ (m.method = "cv_ellipse" ∨ m.method = "cv_rect") ∧
    (13/20 : ℚ) < m.confidence := by
  cases p <;>
    · simp only [AIAnalyzer.geoMeasurements, Option.map_eq_some'] at hm
      obtain ⟨c, _, rfl⟩ := hm
      refine ⟨rfl, by simp, by norm_num⟩

/-- C9: the biometry extractor yields a measurement for each of the four
tracked parameters; every parameter not resolved by a geometric fit receives
the fixed per-parameter reference value plus a jitter draw (the assigned
value stays within 1.5 of the reference), is tagged with the distinct method
tag `cv_fallback`, and carries confidence 0.65 — strictly lower than the
confidence of every geometrically fitted measurement. -/
theorem C9_biometry_fallback (contours : List Contour) (ptm : ℚ) (jit : ℕ → ℚ)
    (hj : ∀ n, |jit n| ≤ 3/2) (p : Param) :
    (AIAnalyzer.geoMeasurements contours ptm p = none →
      AIAnalyzer.measure_biometry contours ptm jit p =
        { value := roundTo 1 (AIAnalyzer.defaultVal p +
            jit (AIAnalyzer.fallbackIndex (AIAnalyzer.geoMeasurements contours ptm) p))
          unit := "mm"
          method := "cv_fallback"
          confidence := 65/100 } ∧
      |(AIAnalyzer.measure_biometry contours ptm jit p).value -
        AIAnalyzer.defaultVal p| ≤ 3/2) ∧
    (∀ m, AIAnalyzer.geoMeasurements contours ptm p = some m →
      AIAnalyzer.measure_biometry contours ptm jit p = m ∧
      m.method ≠ "cv_fallback" ∧ (13/20 : ℚ) < m.confidence) ∧
    (AIAnalyzer.measure_biometry contours ptm jit p).unit = "mm" := by
  refine ⟨?_, ?_, ?_⟩
  · intro hnone
    have hres : AIAnalyzer.measure_biometry contours ptm jit p =
        { value := roundTo 1 (AIAnalyzer.defaultVal p +
            jit (AIAnalyzer.fallbackIndex (AIAnalyzer.geoMeasurements contours ptm) p))
          unit := "mm"
          method := "cv_fallback"
          confidence := 65/100 } := by
      simp [AIAnalyzer.measure_biometry, hnone]
    refine ⟨hres, ?_⟩
    rw [hres]
    dsimp only
    cases p
    · exact roundTo_one_jitter_bound _ _ 470 (by norm_num [AIAnalyzer.defaultVal]) (hj _)
    · exact roundTo_one_jitter_bound _ _ 1750 (by norm_num [AIAnalyzer.defaultVal]) (hj _)
    · exact roundTo_one_jitter_bound _ _ 1520 (by norm_num [AIAnalyzer.defaultVal]) (hj _)
    · exact roundTo_one_jitter_bound _ _ 315 (by norm_num [AIAnalyzer.defaultVal]) (hj _)
  · intro m hm
    have hspec := geoMeasurements_spec contours ptm p m hm
    refine ⟨by simp [AIAnalyzer.measure_biometry, hm], ?_, hspec.2.2⟩
    rcases hspec.2.1 with h | h <;> rw [h] <;> decide
  · cases hgeo : AIAnalyzer.geoMeasurements contours ptm p with
    | none => simp [AIAnalyzer.measure_biometry, hgeo]
    | some m =>
      have hspec := geoMeasurements_spec contours ptm p m hgeo
      have : AIAnalyzer.measure_biometry contours ptm jit p = m := by
        simp [AIAnalyzer.measure_biometry, hgeo]
      rw [this]
      exact hspec.1

theorem C9_biometry_fallback_witness :
    AIAnalyzer.measure_biometry [] 1 (fun _ => 0) Param.BPD =
      { value := roundTo 1 (AIAnalyzer.defaultVal Param.BPD +
          (fun _ => (0 : ℚ)) (AIAnalyzer.fallbackIndex
            (AIAnalyzer.geoMeasurements [] 1) Param.BPD))
        unit := "mm"
        method := "cv_fallback"
        confidence := 65/100 } ∧
    |(AIAnalyzer.measure_biometry [] 1 (fun _ => 0) Param.BPD).value -
      AIAnalyzer.defaultVal Param.BPD| ≤ 3/2 := by
  have hj : ∀ n : ℕ, |((fun _ => (0 : ℚ)) n)| ≤ 3/2 := by
    intro n
    norm_num
  have hnone : AIAnalyzer.geoMeasurements [] 1 Param.BPD = none := by
    simp [AIAnalyzer.geoMeasurements, AIAnalyzer.sortContours, List.mergeSort_nil]
  exact (C9_biometry_fallback [] 1 (fun _ => 0) hj Param.BPD).1 hnone

end RadVerify
